import Mathlib

/-!
Shallow embedding of the remembrall CLI (src/src/remembrall.c).

The program stores "memories" (task, optional project tag, creation timestamp)
in a SQLite table and supports three commands: add, peek, clear.  We embed:

* the persisted table as a `List Memory` in store (rowid/insertion) order;
* the SQLite connection as a `Db` carrying the rows plus an optional
  transaction snapshot (`BEGIN TRANSACTION` records the current rows,
  `ROLLBACK` restores them) — faithful to the only use the program makes of
  transactions, the dry-run rehearsal wrapper;
* `ORDER BY created_at DESC` as a stable insertion sort on the `created_at`
  key (ties keep store order; SQLite leaves tie order unspecified, the claims
  below never depend on it except through explicit strictness hypotheses);
* the argument-scanning loop of `main` as a structural recursion over the
  token list (`scanArgs`), with C-style character access modeled by `cAt`
  (index past the end reads the NUL terminator, Char 0);
* every line the program prints (stderr log lines, row listings, warnings)
  as a `List String`, one entry per printed line, including the literal
  `[INFO] `/`[WARNING] `/`[ERROR] ` prefixes added by `rmbrl_log`.

Timestamps are abstracted to `Nat` (the C stores ISO text whose lexicographic
order is chronological); the verbose-mode date rendering, which the C obtains
by truncating the text timestamp to 10 bytes, is modeled as truncating the
decimal rendering of that Nat.  Strings lengths are measured in UTF-8 bytes
(`String.utf8ByteSize`), matching `strlen`.
-/

/-- A persisted row of the `memories` table
(id INTEGER PRIMARY KEY AUTOINCREMENT, task TEXT, project TEXT, created_at). -/
structure Memory where
  id : Nat
  task : String
  project : String
  created_at : Nat
deriving Repr, DecidableEq

/-- The database connection: current rows plus the snapshot taken by an open
`BEGIN TRANSACTION` (the program only ever begins a transaction in order to
roll it back — the dry-run rehearsal). -/
structure Db where
  rows : List Memory
  snapshot : Option (List Memory)
deriving Repr, DecidableEq

/-- `BEGIN TRANSACTION;` — records the rows to restore on rollback. -/
def rmbrl_db_begin_transaction (db : Db) : Db :=
  { db with snapshot := some db.rows }

/-- `ROLLBACK;` — restores the snapshot (no-op when no transaction is open). -/
def rmbrl_db_rollback_transaction (db : Db) : Db :=
  match db.snapshot with
  | some s => { rows := s, snapshot := none }
  | none => db

inductive Rmbrl_Verbosity_Level where
  | normal
  | silent
  | verbose
deriving Repr, DecidableEq

inductive Rmbrl_Command_Function where
  | unknown
  | add
  | peek
  | clear
deriving Repr, DecidableEq

def rmbrl_command_function_str : Rmbrl_Command_Function → String
  | .unknown => "?"
  | .add => "add"
  | .peek => "peek"
  | .clear => "clear"

structure Rmbrl_Command where
  function : Rmbrl_Command_Function
  verbosity : Rmbrl_Verbosity_Level
  project : Option String
  task : Option String
  all : Bool
  dry_run : Bool
deriving Repr, DecidableEq

/-- The zero-initialized command (`Rmbrl_Command cmd = {0};`) with the
function filled in from the first argument. -/
def initCmd (f : Rmbrl_Command_Function) : Rmbrl_Command :=
  { function := f, verbosity := .normal, project := none, task := none,
    all := false, dry_run := false }

/-- C-string character access: `s[i]`, reading the NUL terminator (Char 0)
at or past the end of the string. -/
def cAt (s : String) (i : Nat) : Char :=
  s.data.getD i (Char.ofNat 0)

/-- `strncmp(s, "-p", 2) == 0`. -/
def isDashP (s : String) : Bool :=
  cAt s 0 == '-' && cAt s 1 == 'p'

/-- `strncmp(s, "--project", 9) == 0`. -/
def isDashDashProject (s : String) : Bool :=
  cAt s 0 == '-' && cAt s 1 == '-' && cAt s 2 == 'p' && cAt s 3 == 'r' &&
  cAt s 4 == 'o' && cAt s 5 == 'j' && cAt s 6 == 'e' && cAt s 7 == 'c' &&
  cAt s 8 == 't'

/-- Pointer offset into a C string: `s + n` (the flag values sliced off after
`=`; the sliced-off flag text is ASCII so byte and char offsets agree). -/
def strDrop (s : String) (n : Nat) : String :=
  ⟨s.data.drop n⟩

/-- Result of the argument-scanning loop in `main` (lines 592-666): either
the accumulated command plus the ignored-token list, or the fatal
"Project flag provided but missing project name" error (which `return 1`s
out of `main` before the database is ever opened). -/
inductive ScanResult where
  | ok (cmd : Rmbrl_Command) (ignored : List String)
  | fatalMissingProjectName
deriving Repr, DecidableEq

/-- The `for (int i = 2; i < argc; ++i)` scanning loop of `main`, one clause
per token in source order: `--all`/`-a` (gated on function ≠ add),
`--dry-run`/`-n`, `--verbose`/`-v`, `--silent`/`-s`, the project flag by
2- or 9-byte prefix with its four value forms, the first non-dash token as the
add task, and everything else appended to the ignored list. -/
def scanArgs : List String → Rmbrl_Command → List String → ScanResult
  | [], cmd, ignored => .ok cmd ignored
  | arg :: rest, cmd, ignored =>
    if (arg == "--all" || arg == "-a") && !(cmd.function == .add) then
      scanArgs rest { cmd with all := true } ignored
    else if arg == "--dry-run" || arg == "-n" then
      scanArgs rest { cmd with dry_run := true } ignored
    else if arg == "--verbose" || arg == "-v" then
      scanArgs rest { cmd with verbosity := .verbose } ignored
    else if arg == "--silent" || arg == "-s" then
      scanArgs rest { cmd with verbosity := .silent } ignored
    else if isDashP arg || isDashDashProject arg then
      if cAt arg 2 == '=' then
        scanArgs rest { cmd with project := some (strDrop arg 3) } ignored
      else if cAt arg 9 == '=' then
        scanArgs rest { cmd with project := some (strDrop arg 10) } ignored
      else
        match rest with
        | next :: rest2 =>
          if cAt next 0 != '-' then
            scanArgs rest2 { cmd with project := some next } ignored
          else .fatalMissingProjectName
        | [] => .fatalMissingProjectName
    else if cmd.function == .add && cmd.task == none && cAt arg 0 != '-' then
      scanArgs rest { cmd with task := some arg } ignored
    else
      scanArgs rest cmd (ignored ++ [arg])

/-- The comma-joined ignored-flag list, mirroring the print loop
(item, then ", " unless it is the last). -/
def joinFlags : List String → String
  | [] => ""
  | [x] => x
  | x :: y :: rest => x ++ ", " ++ joinFlags (y :: rest)

/-- The one warning line for ignored flags (lines 668-678), emitted only when
verbosity is not silent and the list is non-empty. -/
def ignoredWarning (v : Rmbrl_Verbosity_Level) (ignored : List String) : List String :=
  if v != .silent && !ignored.isEmpty then
    ["[WARNING] Ignoring flags: " ++ joinFlags ignored]
  else []

def verbosityStr : Rmbrl_Verbosity_Level → String
  | .normal => "normal"
  | .silent => "silent"
  | .verbose => "verbose"

/-- `rmbrl_command_debug_print` (verbose mode only).  A NULL task/project is
printed by glibc's `%s` as `(null)`. -/
def debugLines (cmd : Rmbrl_Command) : List String :=
  ["[INFO] Parsed Command Line Args:",
   "[INFO]     function: " ++ rmbrl_command_function_str cmd.function,
   "[INFO]     task: " ++ cmd.task.getD "(null)",
   "[INFO]     project: " ++ cmd.project.getD "(null)",
   "[INFO]     all: " ++ (if cmd.all then "true" else "false"),
   "[INFO]     dry-run: " ++ (if cmd.dry_run then "true" else "false"),
   "[INFO]     verbosity: " ++ verbosityStr cmd.verbosity]

/-- Project-length validation used by all three executors:
`cmd->project && strlen(cmd->project) > 256`. -/
def projTooLong : Option String → Bool
  | some p => 256 < p.utf8ByteSize
  | none => false

def taskErrLine (t : String) : String :=
  "[ERROR] Task \"" ++ t ++ "\" exceeds char limit of 256 bytes."

def projErrLine (p : String) : String :=
  "[ERROR] Project \"" ++ p ++ "\" exceeds char limit of 256 bytes."

/-- Verbose-only `[INFO] Begin transaction...` line. -/
def beginLog (v : Rmbrl_Verbosity_Level) : List String :=
  if v = .verbose then ["[INFO] Begin transaction..."] else []

/-- Verbose-only `[INFO] Rollback transaction...` line. -/
def rollbackLog (v : Rmbrl_Verbosity_Level) : List String :=
  if v = .verbose then ["[INFO] Rollback transaction..."] else []

/-- Verbose-only `[INFO] Query: ...` line (the C prints the
parameter-expanded SQL; we keep the raw statement text). -/
def queryLog (v : Rmbrl_Verbosity_Level) (raw : String) : List String :=
  if v = .verbose then ["[INFO] Query: " ++ raw] else []

/-- The date portion the C obtains by `created_at[10] = '\0'`, on the
Nat-abstracted timestamp. -/
def dateStr (n : Nat) : String :=
  (toString n).take 10

/-- One printed row: `[INFO]     "task"`, then ` -- project` when the project
is non-empty, then (verbose only) ` -- date`. -/
def fmtMemoryLine (v : Rmbrl_Verbosity_Level) (m : Memory) : String :=
  "[INFO]     \"" ++ m.task ++ "\"" ++
  (if 0 < m.project.length then " -- " ++ m.project else "") ++
  (if v = .verbose then " -- " ++ dateStr m.created_at else "")

/-- The row filter of `WHERE project = ?` when a project is bound, no filter
otherwise. -/
def matchesFilter (p? : Option String) (m : Memory) : Bool :=
  match p? with
  | some p => m.project == p
  | none => true

/-- Stable descending insertion on the `created_at` key. -/
def insertDesc (x : Memory) : List Memory → List Memory
  | [] => [x]
  | y :: ys => if y.created_at ≤ x.created_at then x :: y :: ys else y :: insertDesc x ys

/-- Stable sort by `created_at` descending: `ORDER BY created_at DESC` with
ties kept in store order. -/
def sortDesc : List Memory → List Memory
  | [] => []
  | x :: xs => insertDesc x (sortDesc xs)

/-- `SELECT * FROM memories [WHERE project = ?] ORDER BY created_at DESC`. -/
def selectOrdered (p? : Option String) (rows : List Memory) : List Memory :=
  sortDesc (rows.filter (matchesFilter p?))

/-- AUTOINCREMENT id for a fresh row: larger than every current id. -/
def freshId (rows : List Memory) : Nat :=
  rows.foldl (fun acc m => max acc m.id) 0 + 1

/-- `INSERT INTO memories (task, project) VALUES (?, ?);` — appends one row
in store order with the store-assigned id and timestamp. -/
def insertMemory (db : Db) (task proj : String) (now : Nat) : Db :=
  { db with rows := db.rows ++
      [{ id := freshId db.rows, task := task, project := proj, created_at := now }] }

def addSql : String := "INSERT INTO memories (task, project) VALUES (?, ?);"

def peekSelectSql : Option String → String
  | some _ => "SELECT * FROM memories WHERE project = ? ORDER BY created_at DESC;"
  | none => "SELECT * FROM memories ORDER BY created_at DESC;"

def clearSelectSql : Option String → String
  | some _ => "SELECT * FROM memories WHERE project = ? ORDER BY created_at DESC LIMIT 1;"
  | none => "SELECT * FROM memories ORDER BY created_at DESC LIMIT 1"

def deleteSql (id? : Option Nat) (p? : Option String) : String :=
  match id?, p? with
  | some _, _ => "DELETE FROM memories WHERE id = ? RETURNING *;"
  | none, some _ => "DELETE FROM memories WHERE project = ? RETURNING *;"
  | none, none => "DELETE FROM memories RETURNING *;"

/-- `rmbrl_command_add` (lines 275-333): validate lengths; in dry-run begin
the rehearsal transaction; insert; report; in dry-run roll back.
Returns (exit result, database, printed lines). -/
def rmbrl_command_add (cmd : Rmbrl_Command) (db : Db) (now : Nat) :
    Nat × Db × List String :=
  let task := cmd.task.getD ""
  if 256 < task.utf8ByteSize then
    (1, db, [taskErrLine task])
  else if projTooLong cmd.project then
    (1, db, [projErrLine (cmd.project.getD "")])
  else
    let (db1, out1) :=
      if cmd.dry_run then
        (rmbrl_db_begin_transaction db,
         ["[INFO] Performing dry run. Memory will NOT be remembered!"] ++
           beginLog cmd.verbosity)
      else (db, ([] : List String))
    let db2 := insertMemory db1 task (cmd.project.getD "") now
    let out2 := queryLog cmd.verbosity addSql ++
      ["[INFO] \"" ++ task ++ "\" was added to your memory!"]
    if cmd.dry_run then
      (0, rmbrl_db_rollback_transaction db2, out1 ++ out2 ++ rollbackLog cmd.verbosity)
    else
      (0, db2, out1 ++ out2)

/-- The `[INFO] Currently Remembering:` header, suppressed in silent mode. -/
def peekHeaderLines (v : Rmbrl_Verbosity_Level) : List String :=
  if v ≠ .silent then ["[INFO] Currently Remembering:"] else []

/-- `rmbrl_command_peek` (lines 335-407): validate project length, select in
`created_at DESC` order (filtered when a project is given), print the header
unless silent, then print every row — or only the first when `all` is false
(the loop breaks after one row). -/
def rmbrl_command_peek (cmd : Rmbrl_Command) (db : Db) : Nat × List String :=
  if projTooLong cmd.project then
    (1, [projErrLine (cmd.project.getD "")])
  else
    let ordered := selectOrdered cmd.project db.rows
    let shown := if cmd.all then ordered else ordered.take 1
    (0, queryLog cmd.verbosity (peekSelectSql cmd.project) ++
        peekHeaderLines cmd.verbosity ++
        shown.map (fmtMemoryLine cmd.verbosity))

/-- The `[INFO] Forgotten Memories:` header, suppressed in silent mode. -/
def clearHeaderLines (v : Rmbrl_Verbosity_Level) : List String :=
  if v ≠ .silent then ["[INFO] Forgotten Memories:"] else []

/-- Verbose-only `Found Memory:` block printed after the resolution select. -/
def clearFoundLines (v : Rmbrl_Verbosity_Level) (m : Memory) : List String :=
  if v = .verbose then ["[INFO] Found Memory:", fmtMemoryLine .verbose m]
  else []

/-- The deletion phase of clear (lines 483-552): by id when one was resolved,
else by project filter (or everything), `RETURNING *` the deleted rows, which
are printed after the header; in dry-run the transaction is rolled back. -/
def clearDelete (cmd : Rmbrl_Command) (db1 : Db) (id? : Option Nat)
    (acc : List String) : Nat × Db × List String :=
  let delPred : Memory → Bool :=
    match id? with
    | some i => fun r => r.id == i
    | none =>
      match cmd.project with
      | some p => fun r => r.project == p
      | none => fun _ => true
  let deleted := db1.rows.filter delPred
  let db2 := { db1 with rows := db1.rows.filter (fun r => !(delPred r)) }
  let out := acc ++ queryLog cmd.verbosity (deleteSql id? cmd.project) ++
    clearHeaderLines cmd.verbosity ++ deleted.map (fmtMemoryLine cmd.verbosity)
  if cmd.dry_run then
    (0, rmbrl_db_rollback_transaction db2, out ++ rollbackLog cmd.verbosity)
  else
    (0, db2, out)

/-- `rmbrl_command_clear` (lines 409-553): validate project length; in
dry-run begin the rehearsal transaction; when `all` is false resolve the
single most-recent matching row first (`... ORDER BY created_at DESC LIMIT
1`) and fail fatally when none exists (the select `sqlite3_errmsg` after a
clean DONE step reads "not an error"); then delete (by the resolved id, or
by filter when `all`). -/
def rmbrl_command_clear (cmd : Rmbrl_Command) (db : Db) : Nat × Db × List String :=
  if projTooLong cmd.project then
    (1, db, [projErrLine (cmd.project.getD "")])
  else
    let (db1, out1) :=
      if cmd.dry_run then
        (rmbrl_db_begin_transaction db,
         ["[INFO] Performing dry run. Memory will NOT be forgotten!"] ++
           beginLog cmd.verbosity)
      else (db, ([] : List String))
    if !cmd.all then
      match (selectOrdered cmd.project db1.rows).head? with
      | none =>
        (1, db1, out1 ++ queryLog cmd.verbosity (clearSelectSql cmd.project) ++
          ["[ERROR] Failed to remember memory to delete: not an error"])
      | some m =>
        clearDelete cmd db1 (some m.id)
          (out1 ++ queryLog cmd.verbosity (clearSelectSql cmd.project) ++
            clearFoundLines cmd.verbosity m)
    else
      clearDelete cmd db1 none out1

/-- Outcome of everything `main` does before touching the database: either an
early exit (help, version, unknown command, scan fatal, missing task) with
its printed lines, or a command to dispatch plus the warning/debug preamble. -/
inductive ParseOutcome where
  | exit (code : Nat) (out : List String)
  | run (cmd : Rmbrl_Command) (ignored : List String) (preOut : List String)
deriving Repr, DecidableEq

/-- `main` up to the point the database path is resolved (lines 555-688):
help/version short-circuits, command-word dispatch, the scanning loop, the
ignored-flags warning, the verbose debug print, and the missing-task check.
Help text rendering is outside the specified core; help paths carry no
modeled output. -/
def rmbrl_parse_argv (args : List String) : ParseOutcome :=
  match args with
  | [] => .exit 1 []
  | first :: rest =>
    if first == "--help" || first == "-h" then .exit 0 []
    else if first == "--version" || first == "-V" then .exit 0 ["remembrall v0.1.0"]
    else
      let f : Rmbrl_Command_Function :=
        if first == "add" then .add
        else if first == "peek" then .peek
        else if first == "clear" then .clear
        else .unknown
      if f == .unknown then
        .exit 1 ["[ERROR] Unknown command '" ++ first ++ "'"]
      else
        match scanArgs rest (initCmd f) [] with
        | .fatalMissingProjectName =>
          .exit 1 ["[ERROR] Project flag provided but missing project name"]
        | .ok cmd ignored =>
          let warn := ignoredWarning cmd.verbosity ignored
          let dbg := if cmd.verbosity == .verbose then debugLines cmd else []
          if cmd.function == .add && cmd.task == none then
            .exit 1 (warn ++ dbg ++
              ["[ERROR] Running \"add\" command but missing task description"])
          else
            .run cmd ignored (warn ++ dbg)

/-- End-to-end `main`: parse, and only on the run outcome open the store and
dispatch.  Returns (exit code, final rows, whether the database was opened,
printed lines).  Path resolution, `sqlite3_open`, and the `CREATE TABLE`
bootstrap are external collaborators modeled as handing over the given rows. -/
def rmbrl_main (args : List String) (store : List Memory) (now : Nat) :
    Nat × List Memory × Bool × List String :=
  match rmbrl_parse_argv args with
  | .exit c out => (c, store, false, out)
  | .run cmd _ preOut =>
    match cmd.function with
    | .add =>
      let r := rmbrl_command_add cmd { rows := store, snapshot := none } now
      (r.1, r.2.1.rows, true, preOut ++ r.2.2)
    | .peek =>
      let r := rmbrl_command_peek cmd { rows := store, snapshot := none }
      (r.1, store, true, preOut ++ r.2)
    | .clear =>
      let r := rmbrl_command_clear cmd { rows := store, snapshot := none }
      (r.1, r.2.1.rows, true, preOut ++ r.2.2)
    | .unknown => (1, store, false, preOut)

/-! ### String and character helpers -/

lemma str_beq_false_of_cAt {t lit : String} (i : Nat) (h : cAt t i ≠ cAt lit i) :
    (t == lit) = false := by
  cases hb : (t == lit)
  · rfl
  · exact absurd (congrArg (fun s => cAt s i) (eq_of_beq hb)) h

lemma ne_of_cAt {s t : String} (i : Nat) (h : cAt s i ≠ cAt t i) : s ≠ t :=
  fun he => h (he ▸ rfl)

lemma ne_lit_of_head_ne_dash {t : String} (h : cAt t 0 ≠ '-') (lit : String)
    (hlit : cAt lit 0 = '-') : t ≠ lit :=
  fun he => h (by rw [he, hlit])

lemma data_append_str (s t : String) : (s ++ t).data = s.data ++ t.data := by
  cases s; cases t; rfl

lemma cAt_append_left (s t : String) (i : Nat) (h : i < s.data.length) :
    cAt (s ++ t) i = cAt s i := by
  simp only [cAt, data_append_str]
  rw [List.getD_append _ _ _ _ h]

lemma strDrop_append (s t : String) (n : Nat) (hn : s.data.length = n) :
    strDrop (s ++ t) n = t := by
  subst hn
  cases t
  simp [strDrop, data_append_str, List.drop_left]

lemma isDashP_false_of_head_ne_dash {t : String} (h : cAt t 0 ≠ '-') :
    isDashP t = false := by
  simp [isDashP, h]

lemma isDashDashProject_false_of_head_ne_dash {t : String} (h : cAt t 0 ≠ '-') :
    isDashDashProject t = false := by
  simp [isDashDashProject, h]

/-! ### Ordering: the stable descending sort on created_at -/

/-- The row order produced by `ORDER BY created_at DESC`. -/
def DescOrd (a b : Memory) : Prop := b.created_at ≤ a.created_at

lemma mem_insertDesc {a x : Memory} {l : List Memory} :
    a ∈ insertDesc x l ↔ a = x ∨ a ∈ l := by
  induction l with
  | nil => simp [insertDesc]
  | cons y ys ih =>
    by_cases h : y.created_at ≤ x.created_at
    · simp [insertDesc, h]
    · simp [insertDesc, h, ih]
      tauto

lemma mem_sortDesc {a : Memory} {l : List Memory} : a ∈ sortDesc l ↔ a ∈ l := by
  induction l with
  | nil => simp [sortDesc]
  | cons x xs ih => simp [sortDesc, mem_insertDesc, ih]

lemma length_insertDesc (x : Memory) (l : List Memory) :
    (insertDesc x l).length = l.length + 1 := by
  induction l with
  | nil => rfl
  | cons y ys ih =>
    by_cases h : y.created_at ≤ x.created_at <;> simp [insertDesc, h, ih]

lemma length_sortDesc (l : List Memory) : (sortDesc l).length = l.length := by
  induction l with
  | nil => rfl
  | cons x xs ih => simp [sortDesc, length_insertDesc, ih]

lemma sortDesc_eq_nil_iff {l : List Memory} : sortDesc l = [] ↔ l = [] := by
  constructor
  · intro h
    have hl := length_sortDesc l
    rw [h] at hl
    exact List.length_eq_zero.mp hl.symm
  · intro h
    subst h
    rfl

lemma pairwise_insertDesc {x : Memory} {l : List Memory}
    (h : l.Pairwise DescOrd) : (insertDesc x l).Pairwise DescOrd := by
  induction l with
  | nil => simp [insertDesc]
  | cons y ys ih =>
    rw [List.pairwise_cons] at h
    obtain ⟨hy, hys⟩ := h
    by_cases hc : y.created_at ≤ x.created_at
    · simp only [insertDesc, if_pos hc]
      refine List.pairwise_cons.mpr ⟨?_, List.pairwise_cons.mpr ⟨hy, hys⟩⟩
      intro b hb
      rcases List.mem_cons.mp hb with h1 | h1
      · subst h1
        exact hc
      · exact le_trans (hy b h1) hc
    · simp only [insertDesc, if_neg hc]
      refine List.pairwise_cons.mpr ⟨?_, ih hys⟩
      intro b hb
      rcases mem_insertDesc.mp hb with h1 | h1
      · subst h1
        exact le_of_lt (lt_of_not_le hc)
      · exact hy b h1

lemma pairwise_sortDesc (l : List Memory) : (sortDesc l).Pairwise DescOrd := by
  induction l with
  | nil => simp [sortDesc]
  | cons x xs ih =>
    simp only [sortDesc]
    exact pairwise_insertDesc ih

/-- The first row of the ordered select is a matching row of maximal
`created_at`. -/
lemma sortDesc_head_max {l : List Memory} {d : Memory}
    (h : (sortDesc l).head? = some d) :
    d ∈ l ∧ ∀ a ∈ l, a.created_at ≤ d.created_at := by
  cases hs : sortDesc l with
  | nil => rw [hs] at h; cases h
  | cons x tl =>
    rw [hs] at h
    have hd : x = d := by
      simpa using h
    subst hd
    constructor
    · exact mem_sortDesc.mp (by rw [hs]; exact List.mem_cons_self x tl)
    · intro a ha
      have ha2 : a ∈ sortDesc l := mem_sortDesc.mpr ha
      rw [hs] at ha2
      rcases List.mem_cons.mp ha2 with h1 | h1
      · subst h1
        exact le_refl _
      · have hp := pairwise_sortDesc l
        rw [hs, List.pairwise_cons] at hp
        exact hp.1 a h1

/-- A strictly most-recent row is the first row of the ordered select. -/
lemma sortDesc_head_of_strict {l : List Memory} {x : Memory}
    (hx : x ∈ l) (hstrict : ∀ a ∈ l, a ≠ x → a.created_at < x.created_at) :
    (sortDesc l).head? = some x := by
  cases hs : sortDesc l with
  | nil =>
    rw [sortDesc_eq_nil_iff] at hs
    subst hs
    cases hx
  | cons d tl =>
    have h : (sortDesc l).head? = some d := by rw [hs]; rfl
    obtain ⟨hd, hmax⟩ := sortDesc_head_max h
    by_cases hdx : d = x
    · rw [hdx]
      rfl
    · exact absurd (hmax x hx) (not_le.mpr (hstrict d hd hdx))

/-! ### Filter helpers -/

lemma length_filter_not_add {α : Type} (l : List α) (p : α → Bool) :
    (l.filter fun a => !(p a)).length + (l.filter p).length = l.length := by
  induction l with
  | nil => simp
  | cons x xs ih =>
    cases h : p x <;> simp [List.filter_cons, h] <;> omega

/-- With globally unique ids, deleting by a present row's id deletes exactly
that row. -/
lemma filter_id_eq_single (rows : List Memory) (d : Memory)
    (hd : d ∈ rows) (hnd : (rows.map Memory.id).Nodup) :
    rows.filter (fun r => r.id == d.id) = [d] := by
  induction rows with
  | nil => cases hd
  | cons x xs ih =>
    rw [List.map_cons, List.nodup_cons] at hnd
    obtain ⟨hx, hxs⟩ := hnd
    rcases List.mem_cons.mp hd with h | h
    · subst h
      have hnil : xs.filter (fun r => r.id == d.id) = [] := by
        apply List.filter_eq_nil_iff.mpr
        intro a ha
        simp only [beq_iff_eq]
        intro haid
        exact hx (haid ▸ List.mem_map_of_mem Memory.id ha)
      simp [List.filter_cons, hnil]
    · have hne : (x.id == d.id) = false := by
        rw [beq_eq_false_iff_ne]
        intro heq
        exact hx (by rw [heq]; exact List.mem_map_of_mem Memory.id h)
      simp [List.filter_cons, hne, ih h hxs]

/-! ### Scanner step lemmas -/

/-- A token whose first character is not a dash matches no flag clause; when
the function is add and no task is set yet, it becomes the task. -/
lemma scan_task_step (cmd : Rmbrl_Command) (ign : List String) (t : String)
    (rest : List String) (hf : cmd.function = .add) (htask : cmd.task = none)
    (h : cAt t 0 ≠ '-') :
    scanArgs (t :: rest) cmd ign = scanArgs rest { cmd with task := some t } ign := by
  have e1 : t ≠ "--all" := ne_lit_of_head_ne_dash h _ (by decide)
  have e2 : t ≠ "-a" := ne_lit_of_head_ne_dash h _ (by decide)
  have e3 : t ≠ "--dry-run" := ne_lit_of_head_ne_dash h _ (by decide)
  have e4 : t ≠ "-n" := ne_lit_of_head_ne_dash h _ (by decide)
  have e5 : t ≠ "--verbose" := ne_lit_of_head_ne_dash h _ (by decide)
  have e6 : t ≠ "-v" := ne_lit_of_head_ne_dash h _ (by decide)
  have e7 : t ≠ "--silent" := ne_lit_of_head_ne_dash h _ (by decide)
  have e8 : t ≠ "-s" := ne_lit_of_head_ne_dash h _ (by decide)
  have p1 : isDashP t = false := isDashP_false_of_head_ne_dash h
  have p2 : isDashDashProject t = false := isDashDashProject_false_of_head_ne_dash h
  conv_lhs => rw [scanArgs.eq_def]
  simp [e1, e2, e3, e4, e5, e6, e7, e8, p1, p2, hf, htask, h]

/-- A token that is none of the recognized flags, from a state where it does
not qualify as the add task, is appended to the ignored list.  (Stated for
the `--all`/`-a` tokens under function add, the C8 gating case.) -/
lemma scan_all_ignored_step (cmd : Rmbrl_Command) (ign : List String)
    (rest : List String) (hf : cmd.function = .add) (tok : String)
    (htok : tok = "--all" ∨ tok = "-a") :
    scanArgs (tok :: rest) cmd ign = scanArgs rest cmd (ign ++ [tok]) := by
  rcases htok with h | h <;> subst h
  · have p1 : isDashP "--all" = false := by decide
    have p2 : isDashDashProject "--all" = false := by decide
    have h0 : cAt "--all" 0 = '-' := by decide
    conv_lhs => rw [scanArgs.eq_def]
    simp [hf, p1, p2, h0]
  · have p1 : isDashP "-a" = false := by decide
    have p2 : isDashDashProject "-a" = false := by decide
    have h0 : cAt "-a" 0 = '-' := by decide
    conv_lhs => rw [scanArgs.eq_def]
    simp [hf, p1, p2, h0]

/-- The `--all`/`-a` clause fires exactly when the function is not add. -/
lemma scan_all_step (cmd : Rmbrl_Command) (ign rest : List String)
    (tok : String) (htok : tok = "--all" ∨ tok = "-a")
    (hf : ¬ (cmd.function = .add)) :
    scanArgs (tok :: rest) cmd ign = scanArgs rest { cmd with all := true } ign := by
  rcases htok with h | h <;> subst h <;>
    · conv_lhs => rw [scanArgs.eq_def]
      simp [hf]

/-- `--project=NAME`: the value attached after `=` at offset 9. -/
lemma scan_project_attached_long (cmd : Rmbrl_Command) (ign rest : List String)
    (N : String) :
    scanArgs (("--project=" ++ N) :: rest) cmd ign
      = scanArgs rest { cmd with project := some N } ign := by
  have c1 : cAt ("--project=" ++ N) 1 = '-' := by
    rw [cAt_append_left _ _ _ (by decide)]; decide
  have c2 : cAt ("--project=" ++ N) 2 = 'p' := by
    rw [cAt_append_left _ _ _ (by decide)]; decide
  have c9 : cAt ("--project=" ++ N) 9 = '=' := by
    rw [cAt_append_left _ _ _ (by decide)]; decide
  have e1 : ("--project=" ++ N) ≠ "--all" := ne_of_cAt 2 (by rw [c2]; decide)
  have e2 : ("--project=" ++ N) ≠ "-a" := ne_of_cAt 2 (by rw [c2]; decide)
  have e3 : ("--project=" ++ N) ≠ "--dry-run" := ne_of_cAt 2 (by rw [c2]; decide)
  have e4 : ("--project=" ++ N) ≠ "-n" := ne_of_cAt 2 (by rw [c2]; decide)
  have e5 : ("--project=" ++ N) ≠ "--verbose" := ne_of_cAt 2 (by rw [c2]; decide)
  have e6 : ("--project=" ++ N) ≠ "-v" := ne_of_cAt 2 (by rw [c2]; decide)
  have e7 : ("--project=" ++ N) ≠ "--silent" := ne_of_cAt 2 (by rw [c2]; decide)
  have e8 : ("--project=" ++ N) ≠ "-s" := ne_of_cAt 2 (by rw [c2]; decide)
  have hpp : isDashDashProject ("--project=" ++ N) = true := by
    have c0 : cAt ("--project=" ++ N) 0 = '-' := by
      rw [cAt_append_left _ _ _ (by decide)]; decide
    have c3 : cAt ("--project=" ++ N) 3 = 'r' := by
      rw [cAt_append_left _ _ _ (by decide)]; decide
    have c4 : cAt ("--project=" ++ N) 4 = 'o' := by
      rw [cAt_append_left _ _ _ (by decide)]; decide
    have c5 : cAt ("--project=" ++ N) 5 = 'j' := by
      rw [cAt_append_left _ _ _ (by decide)]; decide
    have c6 : cAt ("--project=" ++ N) 6 = 'e' := by
      rw [cAt_append_left _ _ _ (by decide)]; decide
    have c7 : cAt ("--project=" ++ N) 7 = 'c' := by
      rw [cAt_append_left _ _ _ (by decide)]; decide
    have c8 : cAt ("--project=" ++ N) 8 = 't' := by
      rw [cAt_append_left _ _ _ (by decide)]; decide
    simp [isDashDashProject, c0, c1, c2, c3, c4, c5, c6, c7, c8]
  have hne2 : cAt ("--project=" ++ N) 2 ≠ '=' := by rw [c2]; decide
  have hdrop : strDrop ("--project=" ++ N) 10 = N :=
    strDrop_append "--project=" N 10 (by decide)
  conv_lhs => rw [scanArgs.eq_def]
  simp [e1, e2, e3, e4, e5, e6, e7, e8, hpp, hne2, c9, hdrop]

/-- `-p=NAME`: the value attached after `=` at offset 2. -/
lemma scan_project_attached_short (cmd : Rmbrl_Command) (ign rest : List String)
    (N : String) :
    scanArgs (("-p=" ++ N) :: rest) cmd ign
      = scanArgs rest { cmd with project := some N } ign := by
  have c0 : cAt ("-p=" ++ N) 0 = '-' := by
    rw [cAt_append_left _ _ _ (by decide)]; decide
  have c1 : cAt ("-p=" ++ N) 1 = 'p' := by
    rw [cAt_append_left _ _ _ (by decide)]; decide
  have c2 : cAt ("-p=" ++ N) 2 = '=' := by
    rw [cAt_append_left _ _ _ (by decide)]; decide
  have e1 : ("-p=" ++ N) ≠ "--all" := ne_of_cAt 1 (by rw [c1]; decide)
  have e2 : ("-p=" ++ N) ≠ "-a" := ne_of_cAt 1 (by rw [c1]; decide)
  have e3 : ("-p=" ++ N) ≠ "--dry-run" := ne_of_cAt 1 (by rw [c1]; decide)
  have e4 : ("-p=" ++ N) ≠ "-n" := ne_of_cAt 1 (by rw [c1]; decide)
  have e5 : ("-p=" ++ N) ≠ "--verbose" := ne_of_cAt 1 (by rw [c1]; decide)
  have e6 : ("-p=" ++ N) ≠ "-v" := ne_of_cAt 1 (by rw [c1]; decide)
  have e7 : ("-p=" ++ N) ≠ "--silent" := ne_of_cAt 1 (by rw [c1]; decide)
  have e8 : ("-p=" ++ N) ≠ "-s" := ne_of_cAt 1 (by rw [c1]; decide)
  have hp : isDashP ("-p=" ++ N) = true := by simp [isDashP, c0, c1]
  have hdrop : strDrop ("-p=" ++ N) 3 = N :=
    strDrop_append "-p=" N 3 (by decide)
  conv_lhs => rw [scanArgs.eq_def]
  simp [e1, e2, e3, e4, e5, e6, e7, e8, hp, c2, hdrop]

/-- `-p NAME` / `--project NAME`: the value is the following token when it
does not start with a dash. -/
lemma scan_project_next (cmd : Rmbrl_Command) (ign : List String)
    (tok N : String) (rest : List String)
    (htok : tok = "-p" ∨ tok = "--project") (hN : cAt N 0 ≠ '-') :
    scanArgs (tok :: N :: rest) cmd ign
      = scanArgs rest { cmd with project := some N } ign := by
  have hb : (cAt N 0 != '-') = true := by simp [bne_iff_ne]; exact hN
  rcases htok with h | h <;> subst h
  · have h1 : isDashP "-p" = true := by decide
    have h2 : cAt "-p" 2 ≠ '=' := by decide
    have h3 : cAt "-p" 9 ≠ '=' := by decide
    simp [scanArgs, h1, h2, h3, hN]
  · have h1 : isDashDashProject "--project" = true := by decide
    have h2 : cAt "--project" 2 ≠ '=' := by decide
    have h3 : cAt "--project" 9 ≠ '=' := by decide
    simp [scanArgs, h1, h2, h3, hN]

/-- A bare `-p`/`--project` followed by a dash-initial token is the fatal
missing-project-name error. -/
lemma scan_project_fatal_cons (cmd : Rmbrl_Command) (ign : List String)
    (tok nx : String) (tl : List String)
    (htok : tok = "-p" ∨ tok = "--project") (hnx : cAt nx 0 = '-') :
    scanArgs (tok :: nx :: tl) cmd ign = .fatalMissingProjectName := by
  rcases htok with h | h <;> subst h
  · have h1 : isDashP "-p" = true := by decide
    have h2 : cAt "-p" 2 ≠ '=' := by decide
    have h3 : cAt "-p" 9 ≠ '=' := by decide
    simp [scanArgs, h1, h2, h3, hnx]
  · have h1 : isDashDashProject "--project" = true := by decide
    have h2 : cAt "--project" 2 ≠ '=' := by decide
    have h3 : cAt "--project" 9 ≠ '=' := by decide
    simp [scanArgs, h1, h2, h3, hnx]

/-- A bare `-p`/`--project` at the end of the argument list is the fatal
missing-project-name error. -/
lemma scan_project_fatal_nil (cmd : Rmbrl_Command) (ign : List String)
    (tok : String) (htok : tok = "-p" ∨ tok = "--project") :
    scanArgs [tok] cmd ign = .fatalMissingProjectName := by
  rcases htok with h | h <;> subst h
  · have h1 : isDashP "-p" = true := by decide
    have h2 : cAt "-p" 2 ≠ '=' := by decide
    have h3 : cAt "-p" 9 ≠ '=' := by decide
    simp [scanArgs, h1, h2, h3]
  · have h1 : isDashDashProject "--project" = true := by decide
    have h2 : cAt "--project" 2 ≠ '=' := by decide
    have h3 : cAt "--project" 9 ≠ '=' := by decide
    simp [scanArgs, h1, h2, h3]

/-! ### Claim theorems -/

/-- Claim C3: for every store state and valid task, `add` with dry_run=true
leaves the persisted rows (in particular the row count) unchanged — the
insert runs inside a transaction begun before it and rolled back after it,
and the command still succeeds. -/
theorem C3_add_dry_run_preserves_rows (cmd : Rmbrl_Command) (db : Db) (now : Nat)
    (hdry : cmd.dry_run = true)
    (htask : (cmd.task.getD "").utf8ByteSize ≤ 256)
    (hproj : projTooLong cmd.project = false) :
    (rmbrl_command_add cmd db now).1 = 0 ∧
    (rmbrl_command_add cmd db now).2.1.rows = db.rows ∧
    (rmbrl_command_add cmd db now).2.1.rows.length = db.rows.length := by
  have hnt : ¬ (256 < (cmd.task.getD "").utf8ByteSize) := Nat.not_lt.mpr htask
  simp [rmbrl_command_add, hdry, hnt, hproj, insertMemory,
    rmbrl_db_begin_transaction, rmbrl_db_rollback_transaction]

/-- Witness for C3 at a concrete input: dry-run add of task "x" on the empty
store returns success and leaves the store empty. -/
theorem C3_witness :
    (rmbrl_command_add { initCmd .add with task := some "x", dry_run := true }
        { rows := [], snapshot := none } 3).1 = 0 ∧
    (rmbrl_command_add { initCmd .add with task := some "x", dry_run := true }
        { rows := [], snapshot := none } 3).2.1.rows
      = ({ rows := [], snapshot := none } : Db).rows ∧
    (rmbrl_command_add { initCmd .add with task := some "x", dry_run := true }
        { rows := [], snapshot := none } 3).2.1.rows.length
      = ({ rows := [], snapshot := none } : Db).rows.length :=
  C3_add_dry_run_preserves_rows { initCmd .add with task := some "x", dry_run := true }
    { rows := [], snapshot := none } 3 rfl (by decide) rfl

/-- Claim C5: a task longer than 256 bytes makes `add` fail with result 1
before any insert, with the store unchanged and the error naming the task;
the same validation, checked second, applies to an over-long project, whose
error names the project. -/
theorem C5_add_length_validation (cmd : Rmbrl_Command) (db : Db) (now : Nat) :
    (256 < (cmd.task.getD "").utf8ByteSize →
      rmbrl_command_add cmd db now = (1, db, [taskErrLine (cmd.task.getD "")])) ∧
    ((cmd.task.getD "").utf8ByteSize ≤ 256 → projTooLong cmd.project = true →
      rmbrl_command_add cmd db now = (1, db, [projErrLine (cmd.project.getD "")])) := by
  constructor
  · intro h
    simp [rmbrl_command_add, h]
  · intro h hp
    have hnt : ¬ (256 < (cmd.task.getD "").utf8ByteSize) := Nat.not_lt.mpr h
    simp [rmbrl_command_add, hnt, hp]

/-- Witness for C5 at concrete inputs: a 257-byte task is rejected with the
task error; a 1-byte task with a 257-byte project is rejected with the
project error; the store is handed back unchanged in both cases. -/
theorem C5_witness :
    (rmbrl_command_add { initCmd .add with task := some (String.mk (List.replicate 257 'a')) }
        { rows := [], snapshot := none } 3
      = (1, { rows := [], snapshot := none },
         [taskErrLine (((some (String.mk (List.replicate 257 'a')) : Option String)).getD "")])) ∧
    (rmbrl_command_add
        { initCmd .add with
          task := some "t"
          project := some (String.mk (List.replicate 257 'b')) }
        { rows := [], snapshot := none } 3
      = (1, { rows := [], snapshot := none },
         [projErrLine (((some (String.mk (List.replicate 257 'b')) : Option String)).getD "")])) := by
  constructor
  · exact (C5_add_length_validation
      { initCmd .add with task := some (String.mk (List.replicate 257 'a')) }
      { rows := [], snapshot := none } 3).1
      (by set_option maxRecDepth 4000 in decide)
  · exact (C5_add_length_validation
      { initCmd .add with
        task := some "t"
        project := some (String.mk (List.replicate 257 'b')) }
      { rows := [], snapshot := none } 3).2
      (by decide) (by set_option maxRecDepth 4000 in decide)

/-- Claim C4: when no row matches the active project filter, `clear` with
all=false fails with result 1 right after the resolution select finds no
row: no delete runs, the store's rows are unchanged, and the only printed
lines are the (verbose-only) query line and the fatal error. -/
theorem C4_clear_no_match_error (p? : Option String) (rows : List Memory)
    (v : Rmbrl_Verbosity_Level)
    (hlen : projTooLong p? = false)
    (hnone : ∀ m ∈ rows, matchesFilter p? m = false) :
    rmbrl_command_clear
        { function := .clear, verbosity := v, project := p?, task := none,
          all := false, dry_run := false }
        { rows := rows, snapshot := none }
      = (1, { rows := rows, snapshot := none },
         queryLog v (clearSelectSql p?) ++
           ["[ERROR] Failed to remember memory to delete: not an error"]) := by
  have hfilter : rows.filter (matchesFilter p?) = [] := by
    apply List.filter_eq_nil_iff.mpr
    intro a ha
    simp [hnone a ha]
  have hhead : (selectOrdered p? rows).head? = none := by
    simp [selectOrdered, hfilter, sortDesc]
  simp [rmbrl_command_clear, hlen, hhead]

/-- Witness for C4 at a concrete input: clearing (no --all) with filter
project "q" on a store holding only an untagged row fails with result 1 and
leaves the row in place. -/
theorem C4_witness :
    rmbrl_command_clear
        { function := .clear, verbosity := .normal, project := some "q", task := none,
          all := false, dry_run := false }
        { rows := [{ id := 1, task := "a", project := "", created_at := 5 }], snapshot := none }
      = (1, { rows := [{ id := 1, task := "a", project := "", created_at := 5 }],
              snapshot := none },
         queryLog .normal (clearSelectSql (some "q")) ++
           ["[ERROR] Failed to remember memory to delete: not an error"]) :=
  C4_clear_no_match_error (some "q")
    [{ id := 1, task := "a", project := "", created_at := 5 }] .normal
    (by decide) (by decide)

/-- Claim C6: a bare project flag (`-p`/`--project`) followed by no further
token or by a dash-initial token makes scanning fail with the fatal
missing-project-name error, from any scanning state; and every parse-stage
exit makes `main` return that exit code with the store untouched and the
database never opened. -/
theorem C6_missing_project_value :
    (∀ (cmd : Rmbrl_Command) (ign : List String) (tok : String) (rest : List String),
       (tok = "-p" ∨ tok = "--project") →
       (rest = [] ∨ ∃ nx tl, rest = nx :: tl ∧ cAt nx 0 = '-') →
       scanArgs (tok :: rest) cmd ign = .fatalMissingProjectName) ∧
    (∀ (args : List String) (store : List Memory) (now : Nat) (c : Nat) (out : List String),
       rmbrl_parse_argv args = .exit c out →
       rmbrl_main args store now = (c, store, false, out)) := by
  constructor
  · intro cmd ign tok rest htok hrest
    rcases hrest with h | ⟨nx, tl, hr, hnx⟩
    · subst h
      exact scan_project_fatal_nil cmd ign tok htok
    · subst hr
      exact scan_project_fatal_cons cmd ign tok nx tl htok hnx
  · intro args store now c out h
    simp [rmbrl_main, h]

/-- Witness for C6 at concrete inputs: `peek -p` (end of args) dies in the
scanner, and `peek -p --all` exits 1 with only the missing-project-name
error printed, the store untouched, the database unopened. -/
theorem C6_witness :
    scanArgs ["-p"] (initCmd .peek) [] = .fatalMissingProjectName ∧
    rmbrl_main ["peek", "-p", "--all"] [] 0
      = (1, [], false, ["[ERROR] Project flag provided but missing project name"]) := by
  constructor
  · exact C6_missing_project_value.1 (initCmd .peek) [] "-p" [] (Or.inl rfl) (Or.inl rfl)
  · exact C6_missing_project_value.2 ["peek", "-p", "--all"] [] 0 1
      ["[ERROR] Project flag provided but missing project name"] (by decide)

/-- Claim C8: under `add`, the `--all` token is not recognized (the all
clause is gated on function ≠ add) and lands in the ignored-flags list,
reported in one comma-joined warning line when verbosity is not silent;
under peek/clear the clause fires and sets all := true. -/
theorem C8_add_all_ignored (t : String) (ht : cAt t 0 ≠ '-')
    (v : Rmbrl_Verbosity_Level) (hv : v ≠ .silent) :
    scanArgs ["--all", t] (initCmd .add) []
      = .ok { function := .add, verbosity := .normal, project := none, task := some t,
              all := false, dry_run := false } ["--all"] ∧
    (∀ (cmd : Rmbrl_Command) (ign rest : List String) (tok : String),
       (tok = "--all" ∨ tok = "-a") → cmd.function ≠ .add →
       scanArgs (tok :: rest) cmd ign = scanArgs rest { cmd with all := true } ign) ∧
    ignoredWarning v ["--all"] = ["[WARNING] Ignoring flags: --all"] ∧
    ignoredWarning .silent ["--all"] = [] := by
  refine ⟨?_, ?_, ?_, ?_⟩
  · rw [scan_all_ignored_step (initCmd .add) [] [t] rfl "--all" (Or.inl rfl)]
    simp only [List.nil_append]
    rw [scan_task_step (initCmd .add) ["--all"] t [] rfl rfl ht]
    simp [scanArgs, initCmd]
  · intro cmd ign rest tok htok hf
    exact scan_all_step cmd ign rest tok htok hf
  · have hvb : (v != Rmbrl_Verbosity_Level.silent) = true := by
      simp [bne_iff_ne]
      exact hv
    simp [ignoredWarning, hvb, joinFlags]
  · rfl

/-- Witness for C8 at a concrete input: `add --all "x"` in normal verbosity
parses with all=false, task "x", ignored list ["--all"], and the warning
line names `--all`. -/
theorem C8_witness :
    scanArgs ["--all", "x"] (initCmd .add) []
      = .ok { function := .add, verbosity := .normal, project := none, task := some "x",
              all := false, dry_run := false } ["--all"] ∧
    (∀ (cmd : Rmbrl_Command) (ign rest : List String) (tok : String),
       (tok = "--all" ∨ tok = "-a") → cmd.function ≠ .add →
       scanArgs (tok :: rest) cmd ign = scanArgs rest { cmd with all := true } ign) ∧
    ignoredWarning .normal ["--all"] = ["[WARNING] Ignoring flags: --all"] ∧
    ignoredWarning .silent ["--all"] = [] :=
  C8_add_all_ignored "x" (by decide) .normal (by decide)

/-- Claim C10: an attached-but-empty project value (`--project=` or `-p=`)
is accepted, setting the project to the empty string, so peek and clear then
filter on `project = ''` and match only untagged rows — unlike omitting the
flag, which applies no filter at all. -/
theorem C10_empty_attached_project (cmd : Rmbrl_Command) (ign rest : List String) :
    scanArgs ("--project=" :: rest) cmd ign
      = scanArgs rest { cmd with project := some "" } ign ∧
    scanArgs ("-p=" :: rest) cmd ign
      = scanArgs rest { cmd with project := some "" } ign ∧
    (∀ rows : List Memory,
      rows.filter (matchesFilter (some "")) = rows.filter (fun m => m.project == "") ∧
      rows.filter (matchesFilter none) = rows) ∧
    (rmbrl_command_peek
        { function := .peek, verbosity := .normal, project := some "", task := none,
          all := true, dry_run := false }
        { rows := [{ id := 1, task := "a", project := "x", created_at := 5 }],
          snapshot := none }).2
      = ["[INFO] Currently Remembering:"] ∧
    (rmbrl_command_peek
        { function := .peek, verbosity := .normal, project := none, task := none,
          all := true, dry_run := false }
        { rows := [{ id := 1, task := "a", project := "x", created_at := 5 }],
          snapshot := none }).2
      = ["[INFO] Currently Remembering:",
         fmtMemoryLine .normal { id := 1, task := "a", project := "x", created_at := 5 }] := by
  refine ⟨?_, ?_, ?_, ?_, ?_⟩
  · have h1 : isDashDashProject "--project=" = true := by decide
    have h2 : cAt "--project=" 2 ≠ '=' := by decide
    have h3 : cAt "--project=" 9 = '=' := by decide
    have h4 : strDrop "--project=" 10 = "" := by decide
    conv_lhs => rw [scanArgs.eq_def]
    simp [h1, h2, h3, h4]
  · have h1 : isDashP "-p=" = true := by decide
    have h2 : cAt "-p=" 2 = '=' := by decide
    have h4 : strDrop "-p=" 3 = "" := by decide
    conv_lhs => rw [scanArgs.eq_def]
    simp [h1, h2, h4]
  · intro rows
    constructor
    · rfl
    · exact List.filter_eq_self.mpr (fun a _ => rfl)
  · decide
  · decide

/-- Claim C7: for every name N not starting with a dash and every plain task
token t, the argument lists `add --project=N t`, `add -p=N t`, `add -p N t`
and `add --project N t` parse to the same command (project = N, task = t),
and running them end to end stores identical rows. -/
theorem C7_project_flag_forms (N t : String) (hN : cAt N 0 ≠ '-')
    (ht : cAt t 0 ≠ '-') (store : List Memory) (now : Nat) :
    rmbrl_parse_argv ["add", "--project=" ++ N, t]
      = .run { function := .add, verbosity := .normal, project := some N,
               task := some t, all := false, dry_run := false } [] [] ∧
    rmbrl_parse_argv ["add", "-p=" ++ N, t]
      = .run { function := .add, verbosity := .normal, project := some N,
               task := some t, all := false, dry_run := false } [] [] ∧
    rmbrl_parse_argv ["add", "-p", N, t]
      = .run { function := .add, verbosity := .normal, project := some N,
               task := some t, all := false, dry_run := false } [] [] ∧
    rmbrl_parse_argv ["add", "--project", N, t]
      = .run { function := .add, verbosity := .normal, project := some N,
               task := some t, all := false, dry_run := false } [] [] ∧
    rmbrl_main ["add", "-p=" ++ N, t] store now
      = rmbrl_main ["add", "--project=" ++ N, t] store now ∧
    rmbrl_main ["add", "-p", N, t] store now
      = rmbrl_main ["add", "--project=" ++ N, t] store now ∧
    rmbrl_main ["add", "--project", N, t] store now
      = rmbrl_main ["add", "--project=" ++ N, t] store now := by
  have hscan1 : scanArgs ["--project=" ++ N, t] (initCmd .add) []
      = .ok { function := .add, verbosity := .normal, project := some N,
              task := some t, all := false, dry_run := false } [] := by
    rw [scan_project_attached_long,
      scan_task_step _ _ t _ rfl rfl ht]
    simp [scanArgs, initCmd]
  have hscan2 : scanArgs ["-p=" ++ N, t] (initCmd .add) []
      = .ok { function := .add, verbosity := .normal, project := some N,
              task := some t, all := false, dry_run := false } [] := by
    rw [scan_project_attached_short,
      scan_task_step _ _ t _ rfl rfl ht]
    simp [scanArgs, initCmd]
  have hscan3 : scanArgs ["-p", N, t] (initCmd .add) []
      = .ok { function := .add, verbosity := .normal, project := some N,
              task := some t, all := false, dry_run := false } [] := by
    rw [scan_project_next (initCmd .add) [] "-p" N [t] (Or.inl rfl) hN,
      scan_task_step _ _ t _ rfl rfl ht]
    simp [scanArgs, initCmd]
  have hscan4 : scanArgs ["--project", N, t] (initCmd .add) []
      = .ok { function := .add, verbosity := .normal, project := some N,
              task := some t, all := false, dry_run := false } [] := by
    rw [scan_project_next (initCmd .add) [] "--project" N [t] (Or.inr rfl) hN,
      scan_task_step _ _ t _ rfl rfl ht]
    simp [scanArgs, initCmd]
  have hp1 : rmbrl_parse_argv ["add", "--project=" ++ N, t]
      = .run { function := .add, verbosity := .normal, project := some N,
               task := some t, all := false, dry_run := false } [] [] := by
    simp [rmbrl_parse_argv, hscan1, ignoredWarning]
  have hp2 : rmbrl_parse_argv ["add", "-p=" ++ N, t]
      = .run { function := .add, verbosity := .normal, project := some N,
               task := some t, all := false, dry_run := false } [] [] := by
    simp [rmbrl_parse_argv, hscan2, ignoredWarning]
  have hp3 : rmbrl_parse_argv ["add", "-p", N, t]
      = .run { function := .add, verbosity := .normal, project := some N,
               task := some t, all := false, dry_run := false } [] [] := by
    simp [rmbrl_parse_argv, hscan3, ignoredWarning]
  have hp4 : rmbrl_parse_argv ["add", "--project", N, t]
      = .run { function := .add, verbosity := .normal, project := some N,
               task := some t, all := false, dry_run := false } [] [] := by
    simp [rmbrl_parse_argv, hscan4, ignoredWarning]
  refine ⟨hp1, hp2, hp3, hp4, ?_, ?_, ?_⟩
  · simp [rmbrl_main, hp1, hp2]
  · simp [rmbrl_main, hp1, hp3]
  · simp [rmbrl_main, hp1, hp4]

/-- Witness for C7 at concrete inputs: the four spellings of project
"lazypm" with task "t" parse identically and store identical rows. -/
theorem C7_witness :
    rmbrl_parse_argv ["add", "--project=" ++ "lazypm", "t"]
      = .run { function := .add, verbosity := .normal, project := some "lazypm",
               task := some "t", all := false, dry_run := false } [] [] ∧
    rmbrl_parse_argv ["add", "-p=" ++ "lazypm", "t"]
      = .run { function := .add, verbosity := .normal, project := some "lazypm",
               task := some "t", all := false, dry_run := false } [] [] ∧
    rmbrl_parse_argv ["add", "-p", "lazypm", "t"]
      = .run { function := .add, verbosity := .normal, project := some "lazypm",
               task := some "t", all := false, dry_run := false } [] [] ∧
    rmbrl_parse_argv ["add", "--project", "lazypm", "t"]
      = .run { function := .add, verbosity := .normal, project := some "lazypm",
               task := some "t", all := false, dry_run := false } [] [] ∧
    rmbrl_main ["add", "-p=" ++ "lazypm", "t"] [] 1
      = rmbrl_main ["add", "--project=" ++ "lazypm", "t"] [] 1 ∧
    rmbrl_main ["add", "-p", "lazypm", "t"] [] 1
      = rmbrl_main ["add", "--project=" ++ "lazypm", "t"] [] 1 ∧
    rmbrl_main ["add", "--project", "lazypm", "t"] [] 1
      = rmbrl_main ["add", "--project=" ++ "lazypm", "t"] [] 1 :=
  C7_project_flag_forms "lazypm" "t" (by decide) (by decide) [] 1

/-- Row lines do not depend on silent-vs-normal verbosity (only verbose adds
the date suffix). -/
lemma fmt_silent_eq_normal (m : Memory) :
    fmtMemoryLine .silent m = fmtMemoryLine .normal m := by
  simp [fmtMemoryLine]

/-- Claim C9 (implicit): silent verbosity does not suppress row output —
peek still prints every shown row line (task plus project suffix) and clear
still prints every deleted row line; silent drops only the
`Currently Remembering:` / `Forgotten Memories:` headers and the
ignored-flags warning. -/
theorem C9_silent_keeps_row_output (p? : Option String) (all : Bool)
    (rows : List Memory) (hlen : projTooLong p? = false) :
    (rmbrl_command_peek
        { function := .peek, verbosity := .silent, project := p?, task := none,
          all := all, dry_run := false } { rows := rows, snapshot := none }).2
      = (if all then selectOrdered p? rows else (selectOrdered p? rows).take 1).map
          (fmtMemoryLine .silent) ∧
    (rmbrl_command_peek
        { function := .peek, verbosity := .normal, project := p?, task := none,
          all := all, dry_run := false } { rows := rows, snapshot := none }).2
      = "[INFO] Currently Remembering:" ::
          (if all then selectOrdered p? rows else (selectOrdered p? rows).take 1).map
            (fmtMemoryLine .silent) ∧
    ((all = true ∨ ∃ m ∈ rows, matchesFilter p? m = true) →
      (rmbrl_command_clear
          { function := .clear, verbosity := .normal, project := p?, task := none,
            all := all, dry_run := false } { rows := rows, snapshot := none }).2.2
        = "[INFO] Forgotten Memories:" ::
            (rmbrl_command_clear
                { function := .clear, verbosity := .silent, project := p?, task := none,
                  all := all, dry_run := false } { rows := rows, snapshot := none }).2.2 ∧
      (rmbrl_command_clear
          { function := .clear, verbosity := .silent, project := p?, task := none,
            all := all, dry_run := false } { rows := rows, snapshot := none }).1
        = (rmbrl_command_clear
            { function := .clear, verbosity := .normal, project := p?, task := none,
              all := all, dry_run := false } { rows := rows, snapshot := none }).1 ∧
      (rmbrl_command_clear
          { function := .clear, verbosity := .silent, project := p?, task := none,
            all := all, dry_run := false } { rows := rows, snapshot := none }).2.1
        = (rmbrl_command_clear
            { function := .clear, verbosity := .normal, project := p?, task := none,
              all := all, dry_run := false } { rows := rows, snapshot := none }).2.1) ∧
    (∀ l, ignoredWarning .silent l = []) := by
  refine ⟨?_, ?_, ?_, ?_⟩
  · simp [rmbrl_command_peek, hlen, peekHeaderLines, queryLog]
  · simp [rmbrl_command_peek, hlen, peekHeaderLines, queryLog, fmt_silent_eq_normal]
  · intro hm
    by_cases hall : all = true
    · subst hall
      simp [rmbrl_command_clear, clearDelete, hlen, clearHeaderLines, clearFoundLines,
        queryLog, fmt_silent_eq_normal]
    · have hallf : all = false := Bool.not_eq_true all ▸ eq_false_of_ne_true hall
      subst hallf
      rcases hm with h | ⟨m, hmem, hmf⟩
      · cases h
      · have hmemf : m ∈ rows.filter (matchesFilter p?) := List.mem_filter.mpr ⟨hmem, hmf⟩
        cases hs : (selectOrdered p? rows).head? with
        | none =>
          exfalso
          rw [List.head?_eq_none_iff] at hs
          rw [selectOrdered, sortDesc_eq_nil_iff] at hs
          rw [hs] at hmemf
          cases hmemf
        | some d =>
          simp [rmbrl_command_clear, clearDelete, hlen, hs, clearHeaderLines,
            clearFoundLines, queryLog, fmt_silent_eq_normal]
  · intro l
    rfl

/-- Witness for C9 at a concrete input: on a one-row store, silent peek
prints just the row line, normal peek adds only the header; normal clear's
output is the header consed onto silent clear's output; the warning is
suppressed when silent. -/
theorem C9_witness :
    (rmbrl_command_peek
        { function := .peek, verbosity := .silent, project := none, task := none,
          all := false, dry_run := false }
        { rows := [{ id := 1, task := "a", project := "", created_at := 5 }],
          snapshot := none }).2
      = ["[INFO]     \"a\""] ∧
    (rmbrl_command_peek
        { function := .peek, verbosity := .normal, project := none, task := none,
          all := false, dry_run := false }
        { rows := [{ id := 1, task := "a", project := "", created_at := 5 }],
          snapshot := none }).2
      = ["[INFO] Currently Remembering:", "[INFO]     \"a\""] ∧
    (rmbrl_command_clear
        { function := .clear, verbosity := .normal, project := none, task := none,
          all := false, dry_run := false }
        { rows := [{ id := 1, task := "a", project := "", created_at := 5 }],
          snapshot := none }).2.2
      = "[INFO] Forgotten Memories:" ::
          (rmbrl_command_clear
              { function := .clear, verbosity := .silent, project := none, task := none,
                all := false, dry_run := false }
              { rows := [{ id := 1, task := "a", project := "", created_at := 5 }],
                snapshot := none }).2.2 ∧
    ignoredWarning .silent ["--x"] = [] := by
  have h := C9_silent_keeps_row_output none false
    [{ id := 1, task := "a", project := "", created_at := 5 }] rfl
  refine ⟨?_, ?_, ?_, h.2.2.2 ["--x"]⟩
  · rw [h.1]
    decide
  · rw [h.2.1]
    decide
  · exact (h.2.2.1 (Or.inr
      ⟨{ id := 1, task := "a", project := "", created_at := 5 }, by simp, rfl⟩)).1

/-- Claim C2 (round trip): adding task t under project P (fresh timestamp)
succeeds and appends exactly one row; peek filtered on P then shows that
row — containing t — as the single most-recent entry, while peek filtered
on Q ≠ P (Q absent from the store) shows no rows at all. -/
theorem C2_roundtrip (t P Q : String) (rows : List Memory) (now : Nat)
    (ht : t.utf8ByteSize ≤ 256) (hP : P.utf8ByteSize ≤ 256) (hQ : Q.utf8ByteSize ≤ 256)
    (hQP : Q ≠ P)
    (hfresh : ∀ m ∈ rows, m.created_at < now)
    (hQabsent : ∀ m ∈ rows, m.project ≠ Q) :
    (rmbrl_command_add
        { function := .add, verbosity := .normal, project := some P, task := some t,
          all := false, dry_run := false } { rows := rows, snapshot := none } now).1 = 0 ∧
    (rmbrl_command_add
        { function := .add, verbosity := .normal, project := some P, task := some t,
          all := false, dry_run := false } { rows := rows, snapshot := none } now).2.1.rows
      = rows ++ [{ id := freshId rows, task := t, project := P, created_at := now }] ∧
    (rmbrl_command_peek
        { function := .peek, verbosity := .normal, project := some P, task := none,
          all := false, dry_run := false }
        (rmbrl_command_add
            { function := .add, verbosity := .normal, project := some P, task := some t,
              all := false, dry_run := false } { rows := rows, snapshot := none } now).2.1).2
      = ["[INFO] Currently Remembering:",
         fmtMemoryLine .normal { id := freshId rows, task := t, project := P, created_at := now }] ∧
    (rmbrl_command_peek
        { function := .peek, verbosity := .normal, project := some Q, task := none,
          all := false, dry_run := false }
        (rmbrl_command_add
            { function := .add, verbosity := .normal, project := some P, task := some t,
              all := false, dry_run := false } { rows := rows, snapshot := none } now).2.1).2
      = ["[INFO] Currently Remembering:"] := by
  have hpP : projTooLong (some P) = false := decide_eq_false (Nat.not_lt.mpr hP)
  have hpQ : projTooLong (some Q) = false := decide_eq_false (Nat.not_lt.mpr hQ)
  have hadd : rmbrl_command_add
      { function := .add, verbosity := .normal, project := some P, task := some t,
        all := false, dry_run := false } { rows := rows, snapshot := none } now
      = (0,
         { rows := rows ++ [{ id := freshId rows, task := t, project := P, created_at := now }],
           snapshot := none },
         ["[INFO] \"" ++ t ++ "\" was added to your memory!"]) := by
    simp [rmbrl_command_add, ht, hpP, insertMemory, queryLog]
  have hfilterP :
      (rows ++ [({ id := freshId rows, task := t, project := P, created_at := now } : Memory)]).filter
          (matchesFilter (some P))
      = rows.filter (matchesFilter (some P)) ++
          [({ id := freshId rows, task := t, project := P, created_at := now } : Memory)] := by
    simp [List.filter_append, matchesFilter]
  have hhead :
      (selectOrdered (some P)
          (rows ++ [{ id := freshId rows, task := t, project := P, created_at := now }])).head?
      = some { id := freshId rows, task := t, project := P, created_at := now } := by
    rw [selectOrdered, hfilterP]
    apply sortDesc_head_of_strict
    · simp
    · intro a ha hne
      rcases List.mem_append.mp ha with h1 | h1
      · exact hfresh a (List.mem_filter.mp h1).1
      · simp at h1
        exact absurd h1 hne
  obtain ⟨tl, hs⟩ : ∃ tl,
      selectOrdered (some P)
          (rows ++ [{ id := freshId rows, task := t, project := P, created_at := now }])
      = { id := freshId rows, task := t, project := P, created_at := now } :: tl := by
    cases hsel : selectOrdered (some P)
        (rows ++ [{ id := freshId rows, task := t, project := P, created_at := now }]) with
    | nil =>
      rw [hsel] at hhead
      cases hhead
    | cons d tl =>
      rw [hsel] at hhead
      have hd : d = { id := freshId rows, task := t, project := P, created_at := now } := by
        simpa using hhead
      subst hd
      exact ⟨tl, rfl⟩
  have hfilterQ :
      (rows ++ [({ id := freshId rows, task := t, project := P, created_at := now } : Memory)]).filter
          (matchesFilter (some Q)) = [] := by
    rw [List.filter_append]
    have h1 : rows.filter (matchesFilter (some Q)) = [] := by
      apply List.filter_eq_nil_iff.mpr
      intro a ha
      simp [matchesFilter]
      exact hQabsent a ha
    have h2 : ([{ id := freshId rows, task := t, project := P, created_at := now }] :
        List Memory).filter (matchesFilter (some Q)) = [] := by
      simp [matchesFilter]
      exact fun h => hQP h.symm
    rw [h1, h2]
    rfl
  have hselQ :
      selectOrdered (some Q)
          (rows ++ [{ id := freshId rows, task := t, project := P, created_at := now }])
      = [] := by
    rw [selectOrdered, hfilterQ]
    rfl
  refine ⟨by rw [hadd], by rw [hadd], ?_, ?_⟩
  · rw [hadd]
    simp [rmbrl_command_peek, hpP, hs, peekHeaderLines, queryLog]
  · rw [hadd]
    simp [rmbrl_command_peek, hpQ, hselQ, peekHeaderLines, queryLog]

/-- Witness for C2 at concrete inputs: add task "x" under project "alpha"
on the empty store, peek "alpha" shows it, peek "beta" shows nothing. -/
theorem C2_witness :
    (rmbrl_command_add
        { function := .add, verbosity := .normal, project := some "alpha",
          task := some "x", all := false, dry_run := false }
        { rows := [], snapshot := none } 1).1 = 0 ∧
    (rmbrl_command_add
        { function := .add, verbosity := .normal, project := some "alpha",
          task := some "x", all := false, dry_run := false }
        { rows := [], snapshot := none } 1).2.1.rows
      = [] ++ [{ id := freshId [], task := "x", project := "alpha", created_at := 1 }] ∧
    (rmbrl_command_peek
        { function := .peek, verbosity := .normal, project := some "alpha", task := none,
          all := false, dry_run := false }
        (rmbrl_command_add
            { function := .add, verbosity := .normal, project := some "alpha",
              task := some "x", all := false, dry_run := false }
            { rows := [], snapshot := none } 1).2.1).2
      = ["[INFO] Currently Remembering:",
         fmtMemoryLine .normal { id := freshId [], task := "x", project := "alpha", created_at := 1 }] ∧
    (rmbrl_command_peek
        { function := .peek, verbosity := .normal, project := some "beta", task := none,
          all := false, dry_run := false }
        (rmbrl_command_add
            { function := .add, verbosity := .normal, project := some "alpha",
              task := some "x", all := false, dry_run := false }
            { rows := [], snapshot := none } 1).2.1).2
      = ["[INFO] Currently Remembering:"] :=
  C2_roundtrip "x" "alpha" "beta" [] 1 (by decide) (by decide) (by decide) (by decide)
    (by simp) (by simp)

/-- Claim C1: on any store with unique ids and at least one row matching the
project filter, `clear` without --all succeeds and removes exactly one row —
a matching row of maximal created_at, resolved by the LIMIT-1 select and
deleted by its id — leaving every other row in place. -/
theorem C1_clear_removes_single_most_recent (p? : Option String) (rows : List Memory)
    (hlen : projTooLong p? = false)
    (hids : (rows.map Memory.id).Nodup)
    (hmatch : ∃ m ∈ rows, matchesFilter p? m = true) :
    (rmbrl_command_clear
        { function := .clear, verbosity := .normal, project := p?, task := none,
          all := false, dry_run := false } { rows := rows, snapshot := none }).1 = 0 ∧
    ∃ d, d ∈ rows ∧ matchesFilter p? d = true ∧
      (∀ m ∈ rows, matchesFilter p? m = true → m.created_at ≤ d.created_at) ∧
      (rmbrl_command_clear
          { function := .clear, verbosity := .normal, project := p?, task := none,
            all := false, dry_run := false } { rows := rows, snapshot := none }).2.1.rows
        = rows.filter (fun r => !(r.id == d.id)) ∧
      (rmbrl_command_clear
          { function := .clear, verbosity := .normal, project := p?, task := none,
            all := false, dry_run := false } { rows := rows, snapshot := none }).2.1.rows.length
          + 1
        = rows.length := by
  obtain ⟨m0, hm0, hmf0⟩ := hmatch
  have hm0f : m0 ∈ rows.filter (matchesFilter p?) := List.mem_filter.mpr ⟨hm0, hmf0⟩
  cases hs : (selectOrdered p? rows).head? with
  | none =>
    exfalso
    rw [List.head?_eq_none_iff] at hs
    rw [selectOrdered, sortDesc_eq_nil_iff] at hs
    rw [hs] at hm0f
    cases hm0f
  | some d =>
    have hs2 : (sortDesc (rows.filter (matchesFilter p?))).head? = some d := hs
    obtain ⟨hdf, hdmax⟩ := sortDesc_head_max hs2
    have hdrows : d ∈ rows := (List.mem_filter.mp hdf).1
    have hdm : matchesFilter p? d = true := (List.mem_filter.mp hdf).2
    have hrows : (rmbrl_command_clear
        { function := .clear, verbosity := .normal, project := p?, task := none,
          all := false, dry_run := false } { rows := rows, snapshot := none }).2.1.rows
        = rows.filter (fun r => !(r.id == d.id)) := by
      simp [rmbrl_command_clear, clearDelete, hlen, hs]
    refine ⟨?_, d, hdrows, hdm, ?_, hrows, ?_⟩
    · simp [rmbrl_command_clear, clearDelete, hlen, hs]
    · intro m hm hmf
      exact hdmax m (List.mem_filter.mpr ⟨hm, hmf⟩)
    · rw [hrows]
      have hsingle : rows.filter (fun r => r.id == d.id) = [d] :=
        filter_id_eq_single rows d hdrows hids
      have hlen2 := length_filter_not_add rows (fun r => r.id == d.id)
      rw [hsingle] at hlen2
      simpa using hlen2

/-- Witness for C1 at a concrete input: clearing (no --all, no filter) a
two-row store removes exactly the newer row. -/
theorem C1_witness :
    (rmbrl_command_clear
        { function := .clear, verbosity := .normal, project := none, task := none,
          all := false, dry_run := false }
        { rows := [{ id := 1, task := "a", project := "", created_at := 5 },
                   { id := 2, task := "b", project := "", created_at := 9 }],
          snapshot := none }).1 = 0 ∧
    ∃ d, d ∈ [{ id := 1, task := "a", project := "", created_at := 5 },
              { id := 2, task := "b", project := "", created_at := 9 }] ∧
      matchesFilter none d = true ∧
      (∀ m ∈ [({ id := 1, task := "a", project := "", created_at := 5 } : Memory),
              { id := 2, task := "b", project := "", created_at := 9 }],
        matchesFilter none m = true → m.created_at ≤ d.created_at) ∧
      (rmbrl_command_clear
          { function := .clear, verbosity := .normal, project := none, task := none,
            all := false, dry_run := false }
          { rows := [{ id := 1, task := "a", project := "", created_at := 5 },
                     { id := 2, task := "b", project := "", created_at := 9 }],
            snapshot := none }).2.1.rows
        = [{ id := 1, task := "a", project := "", created_at := 5 },
           { id := 2, task := "b", project := "", created_at := 9 }].filter
            (fun r => !(r.id == d.id)) ∧
      (rmbrl_command_clear
          { function := .clear, verbosity := .normal, project := none, task := none,
            all := false, dry_run := false }
          { rows := [{ id := 1, task := "a", project := "", created_at := 5 },
                     { id := 2, task := "b", project := "", created_at := 9 }],
            snapshot := none }).2.1.rows.length + 1
        = [({ id := 1, task := "a", project := "", created_at := 5 } : Memory),
           { id := 2, task := "b", project := "", created_at := 9 }].length :=
  C1_clear_removes_single_most_recent none
    [{ id := 1, task := "a", project := "", created_at := 5 },
     { id := 2, task := "b", project := "", created_at := 9 }]
    rfl (by decide) (by decide)
